import Mathlib

/-!
Shallow embedding of the webhook ingestion and message-dispatch pipeline of
the `whatsapp-bot-starter` repository.

Source files embedded:
- `app/services/database.py`   (messages collection operations)
- `app/services/whatsapp.py`   (outbound payload builders and transport client)
- `app/services/message_handler.py` (event router / per-kind handlers)
- `app/routers/webhook.py`     (verification GET, event POST, signature check)

Modelling conventions:
- Python dict lookups via `.get(k)` become `Option` fields; `.get(k, d)`
  becomes `Option.getD`.
- `datetime.utcnow()` is modelled by a monotone counter `World.now`; every
  call to the clock returns a fresh strictly increasing value.
- The MongoDB `messages` collection is the list `World.db` in insertion
  order; `insert_one` appends, `update_one` rewrites the first match.
- The HTTP transport is an oracle `Env.response : Nat → ApiHttpResponse`
  giving the provider's answer to the n-th outbound POST attempt; the list
  `World.sent` records every attempted outbound wire payload in order.
- Python exceptions are modelled by `Except Err`; a `try/except` block
  becomes a `match` on the `Except` value.  State mutated before a raise is
  kept, as in Python.
- Numeric JSON leaves that the code only ever interpolates into reply text
  (location latitude/longitude) are carried as their decimal strings.
-/

set_option synthInstance.maxHeartbeats 1000000
set_option maxHeartbeats 1000000

namespace WhatsAppBot

/-! ## Inbound JSON shapes (as read by the code via `.get`) -/

/-- The `text` sub-object of an inbound message: `message["text"]["body"]`. -/
structure TextObj where
  body : Option String
deriving DecidableEq

/-- The `image` sub-object: the code only reads `caption`. -/
structure ImageObj where
  caption : Option String
deriving DecidableEq

/-- The `document` sub-object: the code reads `filename`. -/
structure DocumentObj where
  filename : Option String
deriving DecidableEq

/-- The `location` sub-object: `latitude` / `longitude` (decimal strings). -/
structure LocationObj where
  latitude : Option String
  longitude : Option String
deriving DecidableEq

/-- A `button_reply` / `list_reply` object: `id` and `title`. -/
structure ReplyObj where
  id : Option String
  title : Option String
deriving DecidableEq

/-- The `interactive` sub-object of an inbound message. -/
structure InteractiveObj where
  type : Option String
  button_reply : Option ReplyObj
  list_reply : Option ReplyObj
deriving DecidableEq

/-- One element of the provider's `messages[]` array, with exactly the keys
the code reads (`type`, `from`, `id`, `timestamp` and the per-kind
sub-objects). `msgFrom` embeds the JSON key `"from"` (a Lean keyword). -/
structure Message where
  id : Option String
  msgFrom : Option String
  timestamp : Option String
  type : Option String
  text : Option TextObj
  image : Option ImageObj
  document : Option DocumentObj
  location : Option LocationObj
  interactive : Option InteractiveObj
deriving DecidableEq

/-- One element of the provider's `statuses[]` array as read by
`process_status`: `id`, `status`, `timestamp`. -/
structure Status where
  id : Option String
  status : Option String
  timestamp : Option String
deriving DecidableEq

/-! ## Outbound wire payloads (`app/services/whatsapp.py`) -/

/-- An input button as consumed by `send_buttons`: `btn["id"]`,
`btn["title"]`. -/
structure ReplyButton where
  id : String
  title : String
deriving DecidableEq

/-- A wire-format button as built by `send_buttons`: the literal
`{"type": "reply", "reply": {"id": .., "title": ..}}` (the constant
`type: "reply"` is implicit in the constructor). -/
structure WireButton where
  reply : ReplyButton
deriving DecidableEq

/-- A row of an interactive list section. -/
structure ListRow where
  id : String
  title : String
  description : String
deriving DecidableEq

/-- A section of an interactive list message. -/
structure ListSection where
  title : String
  rows : List ListRow
deriving DecidableEq

/-- The JSON payloads POSTed to the provider's `/messages` endpoint, one
constructor per builder the router can reach.  The constant envelope
fields (`messaging_product: "whatsapp"`, `recipient_type: "individual"`,
`type`) are implicit in each constructor; the varying fields are carried.
In `buttonsMsg`/`listMsg` the carried data is the `interactive` sub-object:
body text, action (buttons / button text + sections), header, footer. -/
inductive WirePayload where
  | textMsg (toNum : Option String) (preview_url : Bool) (body : String)
  | buttonsMsg (toNum : Option String) (body_text : String)
      (buttons : List WireButton) (header footer : Option String)
  | listMsg (toNum : Option String) (body_text : String) (button_text : String)
      (sections : List ListSection) (header footer : Option String)
  | markRead (message_id : Option String)
deriving DecidableEq

/-! ## Persistence model (`app/services/database.py`, messages collection) -/

/-- One stored document of the `messages` collection.  `created_at` /
`updated_at` hold clock values; `status` / `status_timestamp` start
absent and are written by `update_message_status`. -/
structure MsgDoc where
  message_id : Option String
  msgFrom : Option String
  type : Option String
  timestamp : Option String
  data : Message
  status : Option String
  status_timestamp : Option String
  created_at : Nat
  updated_at : Nat
deriving DecidableEq

/-- The dict built in `process_message` and passed to `save_message`:
`{"message_id": .., "from": .., "type": .., "timestamp": .., "data": ..}`. -/
structure MsgData where
  message_id : Option String
  msgFrom : Option String
  type : Option String
  timestamp : Option String
  data : Message
deriving DecidableEq

/-- The provider's answer to one outbound POST attempt: HTTP status and
the parsed JSON body (`none` models a body `response.json()` fails on). -/
structure ApiHttpResponse where
  status : Nat
  jsonData : Option String
deriving DecidableEq

/-- Program state threaded through the pipeline: the messages collection,
the trace of outbound POST attempts, and the clock. -/
structure World where
  db : List MsgDoc
  sent : List WirePayload
  now : Nat
deriving DecidableEq

/-- Static environment: the transport oracle (indexed by the number of
prior outbound attempts), the configured settings the embedded code reads,
and the HMAC-SHA256 primitive (key → payload → hex digest), kept as an
environment parameter since hashing is not modelled. -/
structure Env where
  response : Nat → ApiHttpResponse
  WEBHOOK_VERIFY_TOKEN : String
  WHATSAPP_API_TOKEN : String
  hmacSha256 : String → String → String

/-- Python exceptions reachable in the embedded code: `ValueError` raised
by a builder, a failed `response.json()`, and the `Exception("API error:
{response_data}")` raised on a non-200 provider status (note: it carries
the parsed response data only, not the status code). -/
inductive Err where
  | valueError (msg : String)
  | jsonError
  | apiError (data : String)
deriving DecidableEq

/-- `datetime.utcnow()`: returns the current clock value and advances it. -/
def utcnow (w : World) : Nat × World :=
  (w.now, { w with now := w.now + 1 })

/-- The document `save_message` inserts, given the data dict and the two
clock samples taken for `created_at` and `updated_at`. -/
def insertedDoc (message_data : MsgData) (t1 t2 : Nat) : MsgDoc :=
  { message_id := message_data.message_id
    msgFrom := message_data.msgFrom
    type := message_data.type
    timestamp := message_data.timestamp
    data := message_data.data
    status := none
    status_timestamp := none
    created_at := t1
    updated_at := t2 }

/-- `Database.save_message`: sets `created_at` and `updated_at` to fresh
clock samples and unconditionally `insert_one`s a new document; returns
the inserted document id (modelled as the prior collection size). -/
def save_message (message_data : MsgData) (w : World) : World × String :=
  let (t1, w1) := utcnow w
  let (t2, w2) := utcnow w1
  ({ w2 with db := w2.db ++ [insertedDoc message_data t1 t2] },
    toString w2.db.length)

/-- Rewrite the first list element satisfying `p` by `f`; `none` when no
element matches (MongoDB `update_one` match semantics). -/
def updateFirst (p : MsgDoc → Bool) (f : MsgDoc → MsgDoc) :
    List MsgDoc → Option (List MsgDoc)
  | [] => none
  | d :: ds =>
    if p d then some (f d :: ds)
    else (updateFirst p f ds).map (fun l => d :: l)

/-- The `$set` document of `update_message_status`. -/
def setStatusFields (status status_timestamp : Option String) (t : Nat)
    (d : MsgDoc) : MsgDoc :=
  { d with status := status, status_timestamp := status_timestamp,
           updated_at := t }

/-- `Database.update_message_status`: `update_one` on the first document
matching `message_id`; returns `modified_count > 0`.  The update document
(and so the clock sample) is built before the match is attempted. -/
def update_message_status (message_id status timestamp : Option String)
    (w : World) : World × Bool :=
  let (t, w1) := utcnow w
  match updateFirst (fun d => d.message_id == message_id)
      (setStatusFields status timestamp t) w1.db with
  | none => (w1, false)
  | some db2 => ({ w1 with db := db2 }, true)

/-! ## Transport client (`WhatsAppService._send_request`) -/

/-- `WhatsAppService._send_request`: performs exactly one POST (recorded on
`World.sent`), then parses the response body (a parse failure raises), then
raises `Exception("API error: ..")` carrying the parsed data when the
status is not 200, else returns the parsed data. -/
def send_request (env : Env) (payload : WirePayload) (w : World) :
    World × Except Err String :=
  let resp := env.response w.sent.length
  let w1 := { w with sent := w.sent ++ [payload] }
  match resp.jsonData with
  | none => (w1, Except.error Err.jsonError)
  | some data =>
    if resp.status ≠ 200 then (w1, Except.error (Err.apiError data))
    else (w1, Except.ok data)

/-! ## Outbound builders (`app/services/whatsapp.py`) -/

/-- `WhatsAppService.send_text_message`. -/
def send_text_message (env : Env) (toNum : Option String) (message : String)
    (preview_url : Bool) (w : World) : World × Except Err String :=
  send_request env (WirePayload.textMsg toNum preview_url message) w

/-- The wire-format wrapping of one input button performed inside
`send_buttons`. -/
def wireButton (btn : ReplyButton) : WireButton :=
  ⟨⟨btn.id, btn.title⟩⟩

/-- `WhatsAppService.send_buttons`: raises `ValueError` when more than 3
buttons are given (and only then), otherwise builds the interactive
payload and sends it. -/
def send_buttons (env : Env) (toNum : Option String) (body_text : String)
    (buttons : List ReplyButton) (header_text footer_text : Option String)
    (w : World) : World × Except Err String :=
  if buttons.length > 3 then
    (w, Except.error (Err.valueError "Maximum 3 buttons allowed"))
  else
    send_request env
      (WirePayload.buttonsMsg toNum body_text (buttons.map wireButton)
        header_text footer_text) w

/-- `WhatsAppService.send_list`: no intent-level validation is performed;
the sections are passed through to the wire payload. -/
def send_list (env : Env) (toNum : Option String)
    (body_text button_text : String) (sections : List ListSection)
    (header_text footer_text : Option String) (w : World) :
    World × Except Err String :=
  send_request env
    (WirePayload.listMsg toNum body_text button_text sections
      header_text footer_text) w

/-- `WhatsAppService.mark_as_read`. -/
def mark_as_read (env : Env) (message_id : Option String) (w : World) :
    World × Except Err String :=
  send_request env (WirePayload.markRead message_id) w

/-! ## Event router (`app/services/message_handler.py`) -/

/-- Discard the value of a send result, keeping state and any raised
exception (the handlers `await` the send and ignore its return value). -/
def ignoreResult (r : World × Except Err String) : World × Except Err Unit :=
  (r.1, r.2.map fun _ => ())

/-- A single-quote character as a string (used inside reply texts). -/
def sq : String := String.singleton (Char.ofNat 39)

/-- Python `str(x)` on a value that may be `None`. -/
def pyStr (s : Option String) : String :=
  match s with
  | none => "None"
  | some v => v

/-- The greeting reply text of `handle_text_message`. -/
def greetingMessage : String :=
  "👋 Hello! Welcome to WhatsApp Bot Starter.\n\nType " ++ sq ++ "help" ++
    sq ++ " to see available commands."

/-- The `help` reply text (Python triple-quoted string, kept verbatim). -/
def helpMessage : String :=
  "\n🤖 *WhatsApp Bot Commands*\n\n• hello - Greet the bot\n• help - Show this help message\n• menu - Show interactive menu\n• buttons - Demo button message\n• info - Get bot information\n\nType any command to get started!\n            "

/-- The `info` reply text (Python triple-quoted string, kept verbatim). -/
def infoMessage : String :=
  "\nℹ️ *Bot Information*\n\nName: WhatsApp Bot Starter\nVersion: 1.0.0\nBuilt by: BotDev Community\n\nThis is a production-ready template for building WhatsApp bots using FastAPI and WhatsApp Cloud API.\n\nGitHub: github.com/botdev-community\n            "

/-- The default (echo) reply text for unknown commands. -/
def echoMessage (text : String) : String :=
  "I received your message: " ++ sq ++ text ++ sq ++ "\n\nType " ++ sq ++
    "help" ++ sq ++ " to see available commands."

/-- The list sections literal sent by the `menu` command. -/
def menuSections : List ListSection :=
  [⟨"Main Menu",
    [⟨"option_1", "Option 1", "Description for option 1"⟩,
     ⟨"option_2", "Option 2", "Description for option 2"⟩,
     ⟨"option_3", "Option 3", "Description for option 3"⟩]⟩]

/-- The buttons literal sent by the `buttons` command. -/
def demoButtons : List ReplyButton :=
  [⟨"btn_1", "Button 1"⟩, ⟨"btn_2", "Button 2"⟩, ⟨"btn_3", "Button 3"⟩]

/-- Python `str.strip()` (whitespace removal at both ends), embedded over
the character list. -/
def pyStrip (s : String) : String :=
  ⟨((s.data.dropWhile Char.isWhitespace).reverse.dropWhile
      Char.isWhitespace).reverse⟩

/-- Python `str.lower()` (per-character lowercasing), embedded over the
character list. -/
def pyLower (s : String) : String :=
  ⟨s.data.map Char.toLower⟩

/-- `message.get("text", {}).get("body", "")`. -/
def textBody (message : Message) : String :=
  ((message.text.getD ⟨none⟩).body.getD "")

/-- `MessageHandler.handle_text_message`: trims and lowercases the text
body and matches it against the fixed command set, sending one reply. -/
def handle_text_message (env : Env) (message : Message)
    (from_number : Option String) (w : World) : World × Except Err Unit :=
  let text := pyStrip (textBody message)
  let text_lower := pyLower text
  if text_lower = "hello" ∨ text_lower = "hi" ∨ text_lower = "hey" then
    ignoreResult (send_text_message env from_number greetingMessage false w)
  else if text_lower = "help" then
    ignoreResult (send_text_message env from_number helpMessage false w)
  else if text_lower = "menu" then
    ignoreResult (send_list env from_number
      "Select an option from the menu:" "View Options" menuSections
      none none w)
  else if text_lower = "buttons" then
    ignoreResult (send_buttons env from_number "Choose an action:"
      demoButtons (some "Demo Buttons") (some "Select one option") w)
  else if text_lower = "info" then
    ignoreResult (send_text_message env from_number infoMessage false w)
  else
    ignoreResult (send_text_message env from_number (echoMessage text)
      false w)

/-- `MessageHandler.handle_image_message`. -/
def handle_image_message (env : Env) (message : Message)
    (from_number : Option String) (w : World) : World × Except Err Unit :=
  let _caption := (message.image.getD ⟨none⟩).caption.getD ""
  ignoreResult (send_text_message env from_number
    "📸 I received your image! Image processing is not implemented yet."
    false w)

/-- `MessageHandler.handle_document_message`. -/
def handle_document_message (env : Env) (message : Message)
    (from_number : Option String) (w : World) : World × Except Err Unit :=
  let filename := (message.document.getD ⟨none⟩).filename.getD "unknown"
  ignoreResult (send_text_message env from_number
    ("📄 I received your document: " ++ filename) false w)

/-- `MessageHandler.handle_audio_message`. -/
def handle_audio_message (env : Env) (_message : Message)
    (from_number : Option String) (w : World) : World × Except Err Unit :=
  ignoreResult (send_text_message env from_number
    "🎵 I received your audio message!" false w)

/-- `MessageHandler.handle_video_message`. -/
def handle_video_message (env : Env) (_message : Message)
    (from_number : Option String) (w : World) : World × Except Err Unit :=
  ignoreResult (send_text_message env from_number
    "🎥 I received your video!" false w)

/-- `MessageHandler.handle_location_message`. -/
def handle_location_message (env : Env) (message : Message)
    (from_number : Option String) (w : World) : World × Except Err Unit :=
  let location := message.location.getD ⟨none, none⟩
  ignoreResult (send_text_message env from_number
    ("📍 I received your location:\nLat: " ++ pyStr location.latitude ++
      "\nLon: " ++ pyStr location.longitude) false w)

/-- `MessageHandler.handle_interactive_message`: replies to `button_reply`
and `list_reply`; any other interactive type falls through silently. -/
def handle_interactive_message (env : Env) (message : Message)
    (from_number : Option String) (w : World) : World × Except Err Unit :=
  let interactive := message.interactive.getD ⟨none, none, none⟩
  if interactive.type = some "button_reply" then
    let button_reply := interactive.button_reply.getD ⟨none, none⟩
    ignoreResult (send_text_message env from_number
      ("You clicked: " ++ pyStr button_reply.title) false w)
  else if interactive.type = some "list_reply" then
    let list_reply := interactive.list_reply.getD ⟨none, none⟩
    ignoreResult (send_text_message env from_number
      ("You selected: " ++ pyStr list_reply.title) false w)
  else
    (w, Except.ok ())

/-- The `if/elif` dispatch on `message["type"]` inside
`MessageHandler.process_message`; the final `else` only logs a warning. -/
def routeMessage (env : Env) (message : Message)
    (from_number : Option String) (w : World) : World × Except Err Unit :=
  if message.type = some "text" then
    handle_text_message env message from_number w
  else if message.type = some "image" then
    handle_image_message env message from_number w
  else if message.type = some "document" then
    handle_document_message env message from_number w
  else if message.type = some "audio" then
    handle_audio_message env message from_number w
  else if message.type = some "video" then
    handle_video_message env message from_number w
  else if message.type = some "location" then
    handle_location_message env message from_number w
  else if message.type = some "interactive" then
    handle_interactive_message env message from_number w
  else
    (w, Except.ok ())

/-- The record dict built in `process_message` and handed to
`save_message`. -/
def mkMsgData (message : Message) : MsgData :=
  ⟨message.id, message.msgFrom, message.type, message.timestamp, message⟩

/-- `MessageHandler.process_message`: marks the message as read, saves it,
and dispatches on its type — all inside one `try` whose `except` logs and
swallows any exception (so a failed mark-as-read send aborts the save and
the dispatch for this message, but never escapes).  The `value` argument
of the Python method is unused by its body and is omitted. -/
def process_message (env : Env) (message : Message) (w : World) : World :=
  let r : World × Except Err Unit :=
    match mark_as_read env message.id w with
    | (w1, Except.error e) => (w1, Except.error e)
    | (w1, Except.ok _) =>
      let (w2, _) := save_message (mkMsgData message) w1
      routeMessage env message message.msgFrom w2
  r.1

/-- `MessageHandler.process_status`: updates the stored message status;
its `try/except` swallows any exception. -/
def process_status (s : Status) (w : World) : World :=
  (update_message_status s.id s.status s.timestamp w).1

/-! ## Webhook router (`app/routers/webhook.py`) -/

/-- The `value` object of one change: optional `messages[]` and
`statuses[]` arrays (`none` models an absent key). -/
structure ChangeValue where
  messages : Option (List Message)
  statuses : Option (List Status)
deriving DecidableEq

/-- One element of an entry's `changes[]` array. -/
structure Change where
  value : Option ChangeValue
deriving DecidableEq

/-- One element of the webhook body's `entry[]` array. -/
structure Entry where
  changes : Option (List Change)
deriving DecidableEq

/-- A parsed webhook POST body: the optional `entry` array (`none` models
a JSON body without the `entry` key). -/
structure Body where
  entry : Option (List Entry)
deriving DecidableEq

/-- A webhook POST request as the handler sees it: the JSON body (`none`
models a body `request.json()` fails on) and the `X-Hub-Signature-256`
header, which the handler never reads (the signature check is commented
out in the source). -/
structure WebhookRequest where
  jsonBody : Option Body
  sigHeader : Option String
deriving DecidableEq

/-- The JSON acknowledgment body returned by the POST handler. -/
inductive AckBody where
  | ok
  | error
deriving DecidableEq

/-- The HTTP response of the POST handler. -/
structure WebhookResponse where
  status : Nat
  body : AckBody
deriving DecidableEq

/-- The per-change processing inside `receive_message`: all messages of
the `value` (when the key is present) in array order, then all statuses
(when the key is present) in array order. -/
def processChangeValue (env : Env) (value : ChangeValue) (w : World) :
    World :=
  let wm :=
    match value.messages with
    | some msgs => msgs.foldl (fun ww m => process_message env m ww) w
    | none => w
  match value.statuses with
  | some sts => sts.foldl (fun ww s => process_status s ww) wm
  | none => wm

/-- `receive_message` (the `POST /webhook` handler): returns 200
`{"status": "ok"}` when the body parses (including when it has no `entry`
key, in which case nothing is processed), iterating entries and changes in
array order otherwise; any exception is answered with 200
`{"status": "error"}` — in this model the only uncaught raise is a JSON
body that fails to parse, since `process_message` and `process_status`
swallow their own exceptions. -/
def receive_message (env : Env) (req : WebhookRequest) (w : World) :
    World × WebhookResponse :=
  match req.jsonBody with
  | none => (w, ⟨200, AckBody.error⟩)
  | some body =>
    match body.entry with
    | none => (w, ⟨200, AckBody.ok⟩)
    | some entries =>
      let w1 := entries.foldl (fun wa entry =>
        (entry.changes.getD []).foldl (fun wb change =>
          processChangeValue env (change.value.getD ⟨none, none⟩) wb) wa) w
      (w1, ⟨200, AckBody.ok⟩)

/-- The response of the verification GET endpoint: a 200 plain-text echo
of the challenge, or an `HTTPException` with status 400 / 403. -/
inductive VerifyResponse where
  | challenge (body : String)
  | httpError (status : Nat) (detail : String)
deriving DecidableEq

/-- `verify_webhook` (the `GET /webhook` handler): 400 when the mode is
not `subscribe`, else 403 when the token does not match the configured
verify token, else a 200 plain-text echo of the challenge. -/
def verify_webhook (env : Env)
    (hub_mode hub_verify_token hub_challenge : String) : VerifyResponse :=
  if hub_mode ≠ "subscribe" then
    VerifyResponse.httpError 400 "Invalid hub.mode"
  else if hub_verify_token ≠ env.WEBHOOK_VERIFY_TOKEN then
    VerifyResponse.httpError 403 "Invalid verify token"
  else
    VerifyResponse.challenge hub_challenge

/-- `verify_signature`: parses an `algorithm=hexdigest` header, rejects
anything but `sha256`, and compares the HMAC of the payload under the API
token against the given digest.  An absent or empty header, or a header
that does not split into exactly two parts (the Python tuple unpacking
raises, caught by the broad `except`), yields `false`. -/
def verify_signature (env : Env) (payload : String)
    (signature : Option String) : Bool :=
  match signature with
  | none => false
  | some s =>
    if s = "" then false
    else
      match s.splitOn "=" with
      | [hash_type, hash_value] =>
        if hash_type ≠ "sha256" then false
        else
          env.hmacSha256 env.WHATSAPP_API_TOKEN payload == hash_value
      | _ => false

/-! ## Specification-side normalizer (§4.2 of the spec)

The source has no standalone normalizer: `receive_message` interleaves
extraction with processing.  The definitions below state the flat event
sequence the spec describes — entries in array order, changes in array
order, messages before statuses within a change — to be compared with the
router by theorem. -/

/-- A normalized inbound event. -/
inductive InboundEvent where
  | msg (m : Message)
  | statusUpdate (s : Status)
deriving DecidableEq

/-- The events of one change `value`: messages (array order), then
statuses (array order). -/
def valueEvents (v : ChangeValue) : List InboundEvent :=
  (v.messages.getD []).map InboundEvent.msg ++
    (v.statuses.getD []).map InboundEvent.statusUpdate

/-- The normalized event sequence of a webhook body: entries in array
order, changes in array order, `valueEvents` within each change.  A body
without the `entry` key yields the empty sequence. -/
def normalizedEvents (b : Body) : List InboundEvent :=
  (b.entry.getD []).flatMap fun e =>
    (e.changes.getD []).flatMap fun c =>
      valueEvents (c.value.getD ⟨none, none⟩)

/-- Processing of one normalized event by the router. -/
def processEvent (env : Env) (w : World) (e : InboundEvent) : World :=
  match e with
  | InboundEvent.msg m => process_message env m w
  | InboundEvent.statusUpdate s => process_status s w

/-! ## Concrete sample data (for closed counterexamples and witnesses) -/

/-- An environment whose provider always answers 200 with body `"ok"`. -/
def env200 : Env :=
  ⟨fun _ => ⟨200, some "ok"⟩, "tok", "apitok", fun _ _ => "digest"⟩

/-- An environment whose provider always answers 500 with body `"err"`
(every outbound transport call fails). -/
def envFail : Env :=
  ⟨fun _ => ⟨500, some "err"⟩, "tok", "apitok", fun _ _ => "digest"⟩

/-- An environment whose provider always answers 201 (a success status
other than 200) with the well-formed body `"created"`. -/
def env201 : Env :=
  ⟨fun _ => ⟨201, some "created"⟩, "tok", "apitok", fun _ _ => "digest"⟩

/-- The empty initial state. -/
def w0 : World := ⟨[], [], 0⟩

/-- A text message whose body is `menu`. -/
def menuMessage : Message :=
  ⟨some "wamid.1", some "15551234567", some "1234567890", some "text",
    some ⟨some "menu"⟩, none, none, none, none⟩

/-- A webhook body with one entry, one change, and the single text
message `menuMessage`. -/
def menuBody : Body :=
  ⟨some [⟨some [⟨some ⟨some [menuMessage], none⟩⟩]⟩]⟩

/-- A message of the unrecognized type `sticker`. -/
def stickerMessage : Message :=
  ⟨some "wamid.2", some "15551234567", some "7", some "sticker",
    none, none, none, none, none⟩

/-- Whether a wire payload is an interactive List message. -/
def isListPayload : WirePayload → Bool
  | WirePayload.listMsg _ _ _ _ _ _ => true
  | _ => false

/-- The message types `process_message` dispatches to a handler. -/
def recognizedTypes : List String :=
  ["text", "image", "document", "audio", "video", "location", "interactive"]

/-- A state holding one stored message record with id `wamid.1`. -/
def wOne : World :=
  ⟨[insertedDoc (mkMsgData menuMessage) 0 1], [], 5⟩

/-! ## Shared lemmas -/

/-- Whatever the provider answers, `send_request` performs exactly one POST
attempt: the state change is always the append of the payload. -/
lemma send_request_world (env : Env) (p : WirePayload) (w : World) :
    (send_request env p w).1 = { w with sent := w.sent ++ [p] } := by
  cases hj : (env.response w.sent.length).jsonData with
  | none => simp [send_request, hj]
  | some d =>
    by_cases h : (env.response w.sent.length).status = 200 <;>
      simp [send_request, hj, h]

/-- A 200 answer with a parseable body makes `send_request` succeed with
the parsed data. -/
lemma send_request_ok (env : Env) (p : WirePayload) (w : World) (d : String)
    (h : env.response w.sent.length = ⟨200, some d⟩) :
    send_request env p w = ({ w with sent := w.sent ++ [p] }, Except.ok d) := by
  unfold send_request
  rw [h]
  simp

/-- The state change of `save_message`. -/
lemma save_message_world (message_data : MsgData) (w : World) :
    (save_message message_data w).1
      = { w with db := w.db ++ [insertedDoc message_data w.now (w.now + 1)],
                 now := w.now + 2 } := rfl

lemma ignoreResult_fst (r : World × Except Err String) :
    (ignoreResult r).1 = r.1 := rfl

/-- Folding over a `flatMap` is the nested fold. -/
lemma foldl_flatMap_eq {α β γ : Type} (f : γ → List β) (g : α → β → α)
    (l : List γ) (a : α) :
    (l.flatMap f).foldl g a
      = l.foldl (fun acc x => (f x).foldl g acc) a := by
  induction l generalizing a with
  | nil => rfl
  | cons x xs ih => simp [List.flatMap_cons, List.foldl_append, ih]

/-- The per-change processing of the router is the fold of `processEvent`
over the normalized events of the change: messages first, then statuses. -/
lemma processChangeValue_eq (env : Env) (v : ChangeValue) (w : World) :
    processChangeValue env v w = (valueEvents v).foldl (processEvent env) w := by
  obtain ⟨ms, ss⟩ := v
  cases ms <;> cases ss <;>
    simp [processChangeValue, valueEvents, List.foldl_append,
      List.foldl_map, processEvent]

/-- The POST handler on a parseable body is exactly the fold of
`processEvent` over the normalized event sequence, answered with
200 `ok`. -/
lemma receive_message_eq_foldl (env : Env) (hdr : Option String) (b : Body)
    (w : World) :
    receive_message env ⟨some b, hdr⟩ w
      = ((normalizedEvents b).foldl (processEvent env) w,
          ⟨200, AckBody.ok⟩) := by
  obtain ⟨entry⟩ := b
  cases entry with
  | none => rfl
  | some entries =>
    simp only [receive_message, normalizedEvents, Option.getD_some,
      foldl_flatMap_eq, processChangeValue_eq]

/-- `updateFirst` finds nothing when no element satisfies the predicate. -/
lemma updateFirst_eq_none (p : MsgDoc → Bool) (f : MsgDoc → MsgDoc)
    (l : List MsgDoc) (h : ∀ d ∈ l, p d = false) :
    updateFirst p f l = none := by
  induction l with
  | nil => rfl
  | cons d ds ih =>
    rw [updateFirst, if_neg (by simp [h d (List.mem_cons_self d ds)]),
      ih fun x hx => h x (List.mem_cons_of_mem d hx)]
    rfl

/-! ## C1 — save_message idempotence -/

/-- C1, counterexample: saving the same message data (same `messageId`)
twice into an empty store leaves TWO stored records for that id, not one —
`save_message` is a plain `insert_one`, not an id-based upsert. -/
theorem save_message_twice_two_records :
    ((save_message (mkMsgData menuMessage)
        (save_message (mkMsgData menuMessage) w0).1).1.db.filter
      (fun r => r.message_id == some "wamid.1")).length = 2 := by decide

/-- C1, amended: `save_message` is a pure insert.  Saving the same data
twice appends two distinct documents; each document's `created_at` and
`updated_at` are freshly sampled from the clock at its own save (so the
second record's `created_at` does not keep the first save's value, and
no stored record is updated in place). -/
theorem save_message_is_pure_insert (message_data : MsgData) (w : World) :
    (save_message message_data (save_message message_data w).1).1.db
      = w.db ++ [insertedDoc message_data w.now (w.now + 1),
          insertedDoc message_data (w.now + 2) (w.now + 3)] := by
  simp [save_message, utcnow]

/-! ## C2 — Buttons payload validation -/

/-- C2, counterexample: an empty buttons list is NOT rejected before
transport — `send_buttons` with 0 buttons performs a POST attempt whose
payload carries an empty `interactive.action.buttons`, and (with a 200
answer) the call succeeds. -/
theorem send_buttons_empty_list_reaches_transport :
    (send_buttons env200 (some "555") "Choose an action:" [] none none
        w0).1.sent
      = [WirePayload.buttonsMsg (some "555") "Choose an action:" []
          none none] ∧
    (send_buttons env200 (some "555") "Choose an action:" [] none none
        w0).2 = Except.ok "ok" :=
  ⟨rfl, rfl⟩

/-- C2, amended: building a Buttons payload fails with `ValueError`
before any transport attempt exactly for buttons lists longer than 3; for
every list of length 0, 1, 2 or 3 the payload is built and a transport
attempt is made, and the produced `interactive.action.buttons` has the
same length as the input list. -/
theorem send_buttons_spec (env : Env) (toNum : Option String)
    (body_text : String) (buttons : List ReplyButton)
    (header footer : Option String) (w : World) :
    (buttons.length > 3 →
      send_buttons env toNum body_text buttons header footer w
        = (w, Except.error (Err.valueError "Maximum 3 buttons allowed"))) ∧
    (buttons.length ≤ 3 →
      (send_buttons env toNum body_text buttons header footer w).1.sent
          = w.sent ++ [WirePayload.buttonsMsg toNum body_text
              (buttons.map wireButton) header footer] ∧
        (buttons.map wireButton).length = buttons.length) := by
  constructor
  · intro h
    simp [send_buttons, h]
  · intro h
    have h3 : ¬ buttons.length > 3 := by omega
    constructor
    · rw [send_buttons, if_neg h3, send_request_world]
    · exact List.length_map _ _

/-- C2, witness: the three demo buttons pass validation and their wire
payload keeps all three. -/
theorem send_buttons_spec_witness :
    (send_buttons env200 (some "555") "Choose an action:" demoButtons
        (some "Demo Buttons") (some "Select one option") w0).1.sent
      = w0.sent ++ [WirePayload.buttonsMsg (some "555") "Choose an action:"
          (demoButtons.map wireButton) (some "Demo Buttons")
          (some "Select one option")] ∧
    (demoButtons.map wireButton).length = demoButtons.length :=
  (send_buttons_spec env200 (some "555") "Choose an action:" demoButtons
      (some "Demo Buttons") (some "Select one option") w0).2 (by decide)

/-! ## C8 — transport client contract -/

/-- C8, counterexample: a 201 answer (a 2xx success status) with a
well-formed body is NOT returned as success — `_send_request` raises
unless the status is exactly 200, and the raised error carries only the
parsed body, not the status code. -/
theorem send_request_201_treated_as_error :
    (send_request env201 (WirePayload.markRead (some "m1")) w0).2
      = Except.error (Err.apiError "created") := rfl

/-- C8, amended: `_send_request` performs exactly one POST attempt per
send (no retry); a malformed response body yields a raised JSON error, a
parseable body with status other than 200 yields a raised API error
carrying the parsed response body (the status code is logged but not
carried), and a status-200 response with a parseable body is returned as
success. -/
theorem send_request_spec (env : Env) (p : WirePayload) (w : World) :
    (send_request env p w).1.sent = w.sent ++ [p] ∧
    ((env.response w.sent.length).jsonData = none →
      (send_request env p w).2 = Except.error Err.jsonError) ∧
    (∀ d, (env.response w.sent.length).jsonData = some d →
      (env.response w.sent.length).status ≠ 200 →
      (send_request env p w).2 = Except.error (Err.apiError d)) ∧
    (∀ d, (env.response w.sent.length).jsonData = some d →
      (env.response w.sent.length).status = 200 →
      (send_request env p w).2 = Except.ok d) := by
  refine ⟨by rw [send_request_world], ?_, ?_, ?_⟩
  · intro hj
    simp [send_request, hj]
  · intro d hj hs
    simp [send_request, hj, hs]
  · intro d hj hs
    simp [send_request, hj, hs]

/-- C8, witness: with a 200 answer and body `ok`, one attempt is made and
the parsed body is returned. -/
theorem send_request_spec_witness :
    (send_request env200 (WirePayload.markRead (some "m1")) w0).2
      = Except.ok "ok" :=
  (send_request_spec env200 (WirePayload.markRead (some "m1")) w0).2.2.2
    "ok" rfl rfl

/-! ## C3 — POST /webhook always answers 200 -/

/-- C3: for every POST request the handler answers with HTTP status 200:
body `ok` whenever the JSON body parses (including a body without the
`entry` key), body `error` (still status 200) when an exception escapes
delivery processing (a body `request.json()` fails on); never a non-200
status. -/
theorem receive_message_always_200 (env : Env) (req : WebhookRequest)
    (w : World) :
    (receive_message env req w).2.status = 200 ∧
    (req.jsonBody = none →
      (receive_message env req w).2.body = AckBody.error) ∧
    (∀ b, req.jsonBody = some b →
      (receive_message env req w).2.body = AckBody.ok) := by
  obtain ⟨jb, hdr⟩ := req
  cases jb with
  | none => simp [receive_message]
  | some body =>
    obtain ⟨entry⟩ := body
    cases entry <;> simp [receive_message]

/-- C3, witness: a delivery with one text message is acknowledged `ok`. -/
theorem receive_message_always_200_witness :
    (receive_message env200 ⟨some menuBody, none⟩ w0).2.body = AckBody.ok :=
  (receive_message_always_200 env200 ⟨some menuBody, none⟩ w0).2.2
    menuBody rfl

/-! ## C5 — webhook verification handshake -/

/-- C5: the verification GET succeeds (200 echo of the challenge) iff the
mode is `subscribe` and the token matches the configured verify token;
any other mode yields 400 `Invalid hub.mode`, and mode `subscribe` with a
mismatched token yields 403 `Invalid verify token`. -/
theorem verify_webhook_spec (env : Env)
    (mode token challenge : String) :
    (verify_webhook env mode token challenge
        = VerifyResponse.challenge challenge ↔
      mode = "subscribe" ∧ token = env.WEBHOOK_VERIFY_TOKEN) ∧
    (mode ≠ "subscribe" →
      verify_webhook env mode token challenge
        = VerifyResponse.httpError 400 "Invalid hub.mode") ∧
    (mode = "subscribe" → token ≠ env.WEBHOOK_VERIFY_TOKEN →
      verify_webhook env mode token challenge
        = VerifyResponse.httpError 403 "Invalid verify token") := by
  unfold verify_webhook
  by_cases h1 : mode = "subscribe" <;>
    by_cases h2 : token = env.WEBHOOK_VERIFY_TOKEN <;>
      simp [h1, h2]

/-- C5, witness: a non-subscribe mode is answered with 400. -/
theorem verify_webhook_spec_witness :
    verify_webhook env200 "unsubscribe" "tok" "chal"
      = VerifyResponse.httpError 400 "Invalid hub.mode" :=
  (verify_webhook_spec env200 "unsubscribe" "tok" "chal").2.1 (by decide)

/-! ## C6 — normalization: empty body and encounter order -/

/-- C6: a webhook body without the `entry` key normalizes to the empty
event sequence and is acknowledged `ok`, not an error; and on every
parseable body the POST handler processes exactly the flat normalized
event sequence — entries in array order, changes in array order, and
within each change all message events before all status events, each in
array order (the order `normalizedEvents` defines). -/
theorem normalization_empty_and_encounter_order (env : Env)
    (hdr : Option String) (b : Body) (w : World) :
    normalizedEvents ⟨none⟩ = [] ∧
    receive_message env ⟨some ⟨none⟩, hdr⟩ w = (w, ⟨200, AckBody.ok⟩) ∧
    receive_message env ⟨some b, hdr⟩ w
      = ((normalizedEvents b).foldl (processEvent env) w,
          ⟨200, AckBody.ok⟩) :=
  ⟨rfl, rfl, receive_message_eq_foldl env hdr b w⟩

/-! ## C7 — status update for an unknown message id -/

/-- C7: a status update whose `messageId` matches no stored record is a
no-op: it returns `false`, raises nothing, and leaves the stored records
(and the outbound trace) unchanged. -/
theorem update_message_status_unknown_id_noop
    (mid st ts : Option String) (w : World)
    (h : ∀ d ∈ w.db, d.message_id ≠ mid) :
    (update_message_status mid st ts w).2 = false ∧
    (update_message_status mid st ts w).1.db = w.db ∧
    (update_message_status mid st ts w).1.sent = w.sent := by
  have hnone : updateFirst (fun d => d.message_id == mid)
      (setStatusFields st ts w.now) w.db = none :=
    updateFirst_eq_none _ _ _ fun d hd =>
      beq_eq_false_iff_ne.mpr (h d hd)
  simp [update_message_status, utcnow, hnone]

/-- C7, witness: a status update for id `zzz` against a store holding only
the record `wamid.1` changes nothing and returns `false`. -/
theorem update_message_status_unknown_id_noop_witness :
    (update_message_status (some "zzz") (some "read") (some "3") wOne).2
        = false ∧
    (update_message_status (some "zzz") (some "read") (some "3")
        wOne).1.db = wOne.db ∧
    (update_message_status (some "zzz") (some "read") (some "3")
        wOne).1.sent = wOne.sent :=
  update_message_status_unknown_id_noop (some "zzz") (some "read")
    (some "3") wOne (by decide)

/-! ## C10 — POST outcome is independent of the signature header -/

/-- C10: two runs of the POST handler on the same JSON body and the same
state, with any two (possibly absent) `X-Hub-Signature-256` header
values, produce the same processing and the same response:
`verify_signature` is never consulted on the POST path (the call is
commented out in the source), so the header cannot influence the
outcome. -/
theorem receive_message_signature_noninterference (env : Env)
    (b : Option Body) (h1 h2 : Option String) (w : World) :
    receive_message env ⟨b, h1⟩ w = receive_message env ⟨b, h2⟩ w := rfl

/-! ## C4 — the menu command -/

/-- A message whose text body is `menu` selects the `menu` branch of
`handle_text_message`. -/
lemma handle_text_message_menu (env : Env) (m : Message)
    (fn : Option String) (w : World)
    (htext : m.text = some ⟨some "menu"⟩) :
    handle_text_message env m fn w
      = ignoreResult (send_list env fn
          "Select an option from the menu:" "View Options" menuSections
          none none w) := by
  have hb : textBody m = "menu" := by simp [textBody, htext]
  simp only [handle_text_message, hb]
  rw [if_neg (by decide), if_neg (by decide), if_pos (by decide)]

/-- Processing one text message `menu` when the mark-as-read POST is
answered 200: the read receipt is sent, the record is inserted, and the
menu List payload is sent (whatever the provider answers to it). -/
lemma process_message_text_menu (env : Env) (m : Message) (w : World)
    (d : String)
    (htype : m.type = some "text")
    (htext : m.text = some ⟨some "menu"⟩)
    (hok : env.response w.sent.length = ⟨200, some d⟩) :
    process_message env m w
      = { db := w.db ++ [insertedDoc (mkMsgData m) w.now (w.now + 1)],
          sent := w.sent ++ [WirePayload.markRead m.id,
            WirePayload.listMsg m.msgFrom
              "Select an option from the menu:" "View Options"
              menuSections none none],
          now := w.now + 2 } := by
  have hmr : mark_as_read env m.id w
      = ({ w with sent := w.sent ++ [WirePayload.markRead m.id] },
          Except.ok d) := by
    unfold mark_as_read
    exact send_request_ok env _ w d hok
  unfold process_message
  rw [hmr]
  simp only [save_message, utcnow]
  simp only [routeMessage, htype, if_pos]
  rw [handle_text_message_menu env m m.msgFrom _ htext, ignoreResult_fst]
  unfold send_list
  rw [send_request_world]
  simp

/-- C4, counterexample: when the outbound transport fails (here: every
POST is answered 500), the awaited mark-as-read send raises inside
`process_message`, so the `menu` delivery produces NO List intent at all
— yet the POST is still acknowledged 200 `ok`.  The claim that exactly
one List intent is produced even when the mark-as-read send fails is
false on the code. -/
theorem menu_no_list_intent_when_mark_read_fails :
    (receive_message envFail ⟨some menuBody, none⟩ w0).1.sent.countP
        isListPayload = 0 ∧
    (receive_message envFail ⟨some menuBody, none⟩ w0).2
      = ⟨200, AckBody.ok⟩ :=
  ⟨by decide, rfl⟩

/-- C4, amended: for a delivery with a single text message whose body is
`menu`, whenever the mark-as-read POST is answered 200, the router sends
exactly the read receipt followed by exactly one List intent whose single
section has the three rows `option_1`, `option_2`, `option_3` — even if
the List transport call itself fails — and the POST is answered 200
`{"status": "ok"}` (the 200 `ok` answer holds even when the mark-as-read
send fails, though then no List intent is produced). -/
theorem menu_delivery_spec (env : Env) (m : Message) (hdr : Option String)
    (w : World) (d : String)
    (htype : m.type = some "text")
    (htext : m.text = some ⟨some "menu"⟩)
    (hok : env.response w.sent.length = ⟨200, some d⟩) :
    (receive_message env
        ⟨some ⟨some [⟨some [⟨some ⟨some [m], none⟩⟩]⟩]⟩, hdr⟩ w).2
      = ⟨200, AckBody.ok⟩ ∧
    (receive_message env
        ⟨some ⟨some [⟨some [⟨some ⟨some [m], none⟩⟩]⟩]⟩, hdr⟩ w).1.sent
      = w.sent ++ [WirePayload.markRead m.id,
          WirePayload.listMsg m.msgFrom
            "Select an option from the menu:" "View Options"
            menuSections none none] ∧
    ([WirePayload.markRead m.id,
      WirePayload.listMsg m.msgFrom "Select an option from the menu:"
        "View Options" menuSections none none].countP isListPayload
      = 1) ∧
    menuSections.map (fun s => s.rows.map ListRow.id)
      = [["option_1", "option_2", "option_3"]] := by
  have hrm : receive_message env
      ⟨some ⟨some [⟨some [⟨some ⟨some [m], none⟩⟩]⟩]⟩, hdr⟩ w
      = (process_message env m w, ⟨200, AckBody.ok⟩) := by
    simp [receive_message, processChangeValue]
  refine ⟨by rw [hrm], ?_, by simp [isListPayload], by decide⟩
  rw [hrm, process_message_text_menu env m w d htype htext hok]

/-- C4, witness: the concrete `menu` delivery against an all-200 provider
sends the read receipt and the three-row menu list. -/
theorem menu_delivery_spec_witness :
    (receive_message env200 ⟨some menuBody, none⟩ w0).2
      = ⟨200, AckBody.ok⟩ ∧
    (receive_message env200 ⟨some menuBody, none⟩ w0).1.sent
      = w0.sent ++ [WirePayload.markRead (some "wamid.1"),
          WirePayload.listMsg (some "15551234567")
            "Select an option from the menu:" "View Options"
            menuSections none none] ∧
    ([WirePayload.markRead (some "wamid.1"),
      WirePayload.listMsg (some "15551234567")
        "Select an option from the menu:" "View Options" menuSections
        none none].countP isListPayload = 1) ∧
    menuSections.map (fun s => s.rows.map ListRow.id)
      = [["option_1", "option_2", "option_3"]] :=
  menu_delivery_spec env200 menuMessage none w0 "ok" rfl rfl rfl

/-! ## C9 — unrecognized message types -/

/-- C9: a message whose type is outside the recognized set is dispatched
to no type-specific handler (the dispatch is the identity, succeeding, on
any state — only a warning is logged), no reply is sent for it (the only
outbound attempt of its processing is the read receipt), processing never
raises (the embedded `process_message` is total), and the remaining
events of the same delivery are still processed and the delivery is still
acknowledged 200 `ok`. -/
theorem unknown_type_logged_and_skipped (env : Env) (m : Message)
    (w : World) (h : ∀ t ∈ recognizedTypes, m.type ≠ some t) :
    (∀ fn w2, routeMessage env m fn w2 = (w2, Except.ok ())) ∧
    (process_message env m w).sent
      = w.sent ++ [WirePayload.markRead m.id] ∧
    (∀ m2 hdr wx,
      receive_message env
          ⟨some ⟨some [⟨some [⟨some ⟨some [m, m2], none⟩⟩]⟩]⟩, hdr⟩ wx
        = (process_message env m2 (process_message env m wx),
            ⟨200, AckBody.ok⟩)) := by
  have hroute : ∀ fn w2, routeMessage env m fn w2 = (w2, Except.ok ()) := by
    intro fn w2
    unfold routeMessage
    rw [if_neg (h "text" (by decide)), if_neg (h "image" (by decide)),
      if_neg (h "document" (by decide)), if_neg (h "audio" (by decide)),
      if_neg (h "video" (by decide)), if_neg (h "location" (by decide)),
      if_neg (h "interactive" (by decide))]
  refine ⟨hroute, ?_, ?_⟩
  · unfold process_message
    rcases hmr : mark_as_read env m.id w with ⟨w1, r⟩
    have hw1 : w1 = { w with sent := w.sent ++ [WirePayload.markRead m.id] } := by
      have hsw := send_request_world env (WirePayload.markRead m.id) w
      rw [mark_as_read] at hmr
      rw [← hsw, hmr]
    cases r with
    | error e => simp [hw1]
    | ok v => simp [save_message, utcnow, hroute, hw1]
  · intro m2 hdr wx
    simp [receive_message, processChangeValue]

/-- C9, witness: a `sticker` message is routed to no handler and its
processing attempts only the read receipt. -/
theorem unknown_type_logged_and_skipped_witness :
    routeMessage env200 stickerMessage (some "555") w0
        = (w0, Except.ok ()) ∧
    (process_message env200 stickerMessage w0).sent
      = w0.sent ++ [WirePayload.markRead (some "wamid.2")] :=
  ⟨(unknown_type_logged_and_skipped env200 stickerMessage w0
      (by decide)).1 (some "555") w0,
   (unknown_type_logged_and_skipped env200 stickerMessage w0
      (by decide)).2.1⟩

end WhatsAppBot
